import Mathlib

/-!
Verification of the retrieval-and-ranking core of the support-ticketing
repository.  Python functions are shallowly embedded as Lean definitions:
pure functions become Lean functions, the stateful embedding-service call
counter becomes explicit state passing, fallible code returns
`Option`/`Except`, and floating-point values are modelled as real numbers.
External collaborators (the sentence-transformer model, the completion
service, the SQL database rows) enter as explicit parameters.
-/

/-! ### `backend/app/rag/embeddings.py` — `EmbeddingService.calculate_similarity`

`np.dot` on two 1-d arrays of unequal length raises `ValueError`; the
surrounding `try`/`except` of `calculate_similarity` catches every
exception and returns `0.0`.  `calculate_similarity_checked` models the
body up to the exception boundary (`Except.error` standing for a raised
exception), and `calculate_similarity` models the whole method including
the catch-all handler. -/

/-- `np.dot(vec1, vec2)` for two 1-d arrays of the same length. -/
def dotProduct (a b : List ℝ) : ℝ :=
  (List.zipWith (fun x y => x * y) a b).sum

/-- `np.linalg.norm(vec)` — the Euclidean norm of a 1-d array. -/
noncomputable def npNorm (v : List ℝ) : ℝ :=
  Real.sqrt ((v.map (fun x => x * x)).sum)

/-- Body of `EmbeddingService.calculate_similarity` up to the `except`
handler: a dimension mismatch makes `np.dot` raise (modelled as
`Except.error ()`); otherwise the guarded cosine similarity is returned. -/
noncomputable def calculate_similarity_checked (embedding1 embedding2 : List ℝ) :
    Except Unit ℝ :=
  if embedding1.length ≠ embedding2.length then .error ()
  else
    let dot_product := dotProduct embedding1 embedding2
    let norm_product := npNorm embedding1 * npNorm embedding2
    if norm_product = 0 then .ok 0
    else .ok (dot_product / norm_product)

/-- `EmbeddingService.calculate_similarity`: the `try`/`except` wrapper
converts any raised exception into the return value `0.0`. -/
noncomputable def calculate_similarity (embedding1 embedding2 : List ℝ) : ℝ :=
  match calculate_similarity_checked embedding1 embedding2 with
  | .ok v => v
  | .error _ => 0

/-- C4: the claim says a dimension mismatch fails with
`DimensionMismatchError` rather than returning a numeric value; in the
code the raised `ValueError` is swallowed by the catch-all handler and the
numeric value `0.0` is returned for the mismatched pair `[1]`, `[1, 1]`. -/
theorem c4_counterexample :
    List.length [(1 : ℝ)] ≠ List.length [(1 : ℝ), 1] ∧
      calculate_similarity [(1 : ℝ)] [(1 : ℝ), 1] = 0 := by
  constructor
  · decide
  · rfl

/-- C4 (amended): for embeddings of unequal dimensionality the raised
exception is caught by the catch-all handler and `calculate_similarity`
returns `0.0`; no dedicated `DimensionMismatchError` reaches the caller. -/
theorem c4_mismatch_returns_zero (embedding1 embedding2 : List ℝ)
    (h : embedding1.length ≠ embedding2.length) :
    calculate_similarity_checked embedding1 embedding2 = .error () ∧
      calculate_similarity embedding1 embedding2 = 0 := by
  have h1 : calculate_similarity_checked embedding1 embedding2 = .error () := by
    simp [calculate_similarity_checked, h]
  exact ⟨h1, by simp [calculate_similarity, h1]⟩

/-- C4 witness: the amended theorem evaluated at the concrete mismatched
pair `[1]` and `[1, 1]`. -/
theorem c4_witness :
    List.length [(1 : ℝ)] ≠ List.length [(1 : ℝ), 1] ∧
      (calculate_similarity_checked [(1 : ℝ)] [(1 : ℝ), 1] = .error () ∧
        calculate_similarity [(1 : ℝ)] [(1 : ℝ), 1] = 0) :=
  ⟨by decide, c4_mismatch_returns_zero [(1 : ℝ)] [(1 : ℝ), 1] (by decide)⟩

/-- C8: for equal-dimension embeddings with a zero-norm factor the guard
`norm_product == 0` fires, the division is never executed, and the method
returns exactly `0.0` without raising. -/
theorem c8_zero_norm_returns_zero (embedding1 embedding2 : List ℝ)
    (hlen : embedding1.length = embedding2.length)
    (hnorm : npNorm embedding1 = 0 ∨ npNorm embedding2 = 0) :
    calculate_similarity_checked embedding1 embedding2 = .ok 0 ∧
      calculate_similarity embedding1 embedding2 = 0 := by
  have hprod : npNorm embedding1 * npNorm embedding2 = 0 := by
    rcases hnorm with h | h <;> simp [h]
  have h1 : calculate_similarity_checked embedding1 embedding2 = .ok 0 := by
    simp [calculate_similarity_checked, hlen, hprod]
  exact ⟨h1, by simp [calculate_similarity, h1]⟩

/-- C8 witness: the zero vector `[0]` against `[1]` yields exactly `0.0`
and no exception. -/
theorem c8_witness :
    [(0 : ℝ)].length = [(1 : ℝ)].length ∧
      (calculate_similarity_checked [(0 : ℝ)] [(1 : ℝ)] = .ok 0 ∧
        calculate_similarity [(0 : ℝ)] [(1 : ℝ)] = 0) :=
  ⟨rfl, c8_zero_norm_returns_zero [(0 : ℝ)] [(1 : ℝ)] rfl
    (Or.inl (by simp [npNorm]))⟩

/-! ### Python's `list.sort(key=..., reverse=True)` — stable descending sort

Python's sort is stable, and `reverse=True` preserves the original order of
elements with equal keys.  It is modelled as a stable descending insertion
sort: an element is placed before the first element with a strictly
smaller key, after any earlier element with an equal key. -/

noncomputable def insertDescBy {α : Type} (key : α → ℝ) (x : α) : List α → List α
  | [] => [x]
  | y :: ys => if key x < key y then y :: insertDescBy key x ys else x :: y :: ys

noncomputable def sortDescBy {α : Type} (key : α → ℝ) : List α → List α
  | [] => []
  | x :: xs => insertDescBy key x (sortDescBy key xs)

theorem insertDescBy_perm {α : Type} (key : α → ℝ) (x : α) :
    ∀ l : List α, (insertDescBy key x l).Perm (x :: l)
  | [] => List.Perm.refl _
  | y :: ys => by
    rw [insertDescBy]
    split
    · exact ((insertDescBy_perm key x ys).cons y).trans (List.Perm.swap x y ys)
    · exact List.Perm.refl _

theorem sortDescBy_perm {α : Type} (key : α → ℝ) :
    ∀ l : List α, (sortDescBy key l).Perm l
  | [] => List.Perm.refl _
  | x :: xs => by
    rw [sortDescBy]
    exact ((insertDescBy_perm key x (sortDescBy key xs)).trans
      ((sortDescBy_perm key xs).cons x))

theorem mem_insertDescBy {α : Type} {key : α → ℝ} {x a : α} {l : List α} :
    a ∈ insertDescBy key x l ↔ a = x ∨ a ∈ l := by
  rw [(insertDescBy_perm key x l).mem_iff]
  simp

/-- The ordering the `rank` contract promises on the output of the sort:
strictly larger similarity first, ties broken by the original candidate
position. -/
def rankRel (a b : ℕ × ℝ) : Prop :=
  b.2 < a.2 ∨ (a.2 = b.2 ∧ a.1 < b.1)

theorem insertDescBy_pairwise_rank {x : ℕ × ℝ} :
    ∀ {l : List (ℕ × ℝ)}, l.Pairwise rankRel → (∀ y ∈ l, x.1 < y.1) →
      (insertDescBy Prod.snd x l).Pairwise rankRel
  | [], _, _ => List.pairwise_singleton _ _
  | y :: ys, hl, hx => by
    rw [insertDescBy]
    split
    · rename_i hlt
      refine List.Pairwise.cons ?_
        (insertDescBy_pairwise_rank (List.Pairwise.of_cons hl)
          (fun z hz => hx z (List.mem_cons_of_mem y hz)))
      intro z hz
      rcases mem_insertDescBy.mp hz with rfl | hz
      · exact Or.inl hlt
      · exact List.rel_of_pairwise_cons hl hz
    · rename_i hge
      push_neg at hge
      refine List.Pairwise.cons ?_ hl
      intro z hz
      rcases List.mem_cons.mp hz with rfl | hz
      · rcases lt_or_eq_of_le hge with h | h
        · exact Or.inl h
        · exact Or.inr ⟨h.symm, hx z (List.mem_cons_self _ _)⟩
      · have hzy : rankRel y z := List.rel_of_pairwise_cons hl hz
        have hz2 : z.2 ≤ x.2 := by
          rcases hzy with h | ⟨h, _⟩
          · exact le_trans (le_of_lt h) hge
          · exact le_trans (le_of_eq h.symm) hge
        rcases lt_or_eq_of_le hz2 with h | h
        · exact Or.inl h
        · exact Or.inr ⟨h.symm, hx z (List.mem_cons_of_mem y hz)⟩

theorem sortDescBy_pairwise_rank :
    ∀ {l : List (ℕ × ℝ)}, l.Pairwise (fun a b => a.1 < b.1) →
      (sortDescBy Prod.snd l).Pairwise rankRel
  | [], _ => List.Pairwise.nil
  | x :: xs, h => by
    rw [sortDescBy]
    refine insertDescBy_pairwise_rank (sortDescBy_pairwise_rank (List.Pairwise.of_cons h)) ?_
    intro y hy
    exact List.rel_of_pairwise_cons h ((sortDescBy_perm Prod.snd xs).mem_iff.mp hy)

theorem pairwise_fst_lt_enumFrom {α : Type} :
    ∀ (n : ℕ) (l : List α), (List.enumFrom n l).Pairwise (fun a b => a.1 < b.1)
  | _, [] => List.Pairwise.nil
  | n, x :: xs => by
    rw [List.enumFrom_cons]
    refine List.Pairwise.cons ?_ (pairwise_fst_lt_enumFrom (n + 1) xs)
    intro y hy
    obtain ⟨i, a⟩ := y
    have := (List.mem_enumFrom hy).1
    simpa using this

/-! ### `backend/app/rag/embeddings.py` — `EmbeddingService.find_most_similar`
and the ranking core of `TicketRetriever.find_similar_tickets`

`find_most_similar` enumerates the candidates, keeps each index whose
similarity to the query passes the threshold, sorts descending by
similarity (Python's stable sort) and truncates to the configured result
budget; `find_similar_tickets` applies the identical
filter-sort-truncate algorithm to the database rows with `limit` as an
explicit parameter.  The threshold and the budget are configuration
values (`settings.SIMILARITY_THRESHOLD`, `settings.MAX_RETRIEVED_DOCS`)
passed here as parameters. -/

/-- The loop body of `find_most_similar`: every candidate is compared with
the query and kept (with its original index) when
`similarity >= threshold`. -/
noncomputable def rankCandidates (query : List ℝ) (candidate_embeddings : List (List ℝ))
    (threshold : ℝ) : List (ℕ × ℝ) :=
  candidate_embeddings.enum.filterMap (fun ic =>
    let similarity := calculate_similarity query ic.2
    if threshold ≤ similarity then some (ic.1, similarity) else none)

/-- `EmbeddingService.find_most_similar`: exhaustive comparison, threshold
filter, stable descending sort, truncation to the result budget. -/
noncomputable def find_most_similar (query : List ℝ) (candidate_embeddings : List (List ℝ))
    (threshold : ℝ) (maxDocs : ℕ) : List (ℕ × ℝ) :=
  (sortDescBy Prod.snd (rankCandidates query candidate_embeddings threshold)).take maxDocs

theorem mem_rankCandidates_iff {query : List ℝ} {cands : List (List ℝ)} {θ : ℝ}
    {p : ℕ × ℝ} :
    p ∈ rankCandidates query cands θ ↔
      ∃ h : p.1 < cands.length,
        p.2 = calculate_similarity query (cands.get ⟨p.1, h⟩) ∧ θ ≤ p.2 := by
  constructor
  · intro hp
    rcases List.mem_filterMap.mp hp with ⟨⟨i, c⟩, hic, hf⟩
    by_cases hθ : θ ≤ calculate_similarity query c
    · simp only [hθ, if_pos] at hf
      obtain ⟨hi, hc⟩ := List.mem_enum hic
      cases hf
      exact ⟨hi, by simp [hc.symm, List.get_eq_getElem], by simpa using hθ⟩
    · simp [hθ] at hf
  · rintro ⟨h, hval, hθ⟩
    refine List.mem_filterMap.mpr ⟨(p.1, cands.get ⟨p.1, h⟩), ?_, ?_⟩
    · exact List.mk_mem_enum_iff_get?.mpr (by simp [List.get?_eq_get h])
    · simp only
      rw [← hval, if_pos hθ]

/-- C3: `rank` (as implemented by `find_most_similar` and by the
filter/sort/truncate core of `find_similar_tickets`) returns at most
`limit` items, each returned similarity passes the threshold, the output
is descending in similarity with ties in original candidate order, the
truncation keeps a prefix of the full stable-sorted ranking, and that full
ranking is a permutation of the exhaustive threshold-filtered comparison
of every candidate. -/
theorem c3_rank_contract (query : List ℝ) (cands : List (List ℝ)) (θ : ℝ) (limit : ℕ) :
    (find_most_similar query cands θ limit).length ≤ limit ∧
    (∀ p ∈ find_most_similar query cands θ limit, θ ≤ p.2) ∧
    (find_most_similar query cands θ limit).Pairwise rankRel ∧
    find_most_similar query cands θ limit =
      (sortDescBy Prod.snd (rankCandidates query cands θ)).take limit ∧
    (sortDescBy Prod.snd (rankCandidates query cands θ)).Perm (rankCandidates query cands θ) ∧
    (∀ i : ℕ, ∀ h : i < cands.length,
      θ ≤ calculate_similarity query (cands.get ⟨i, h⟩) →
        (i, calculate_similarity query (cands.get ⟨i, h⟩)) ∈
          sortDescBy Prod.snd (rankCandidates query cands θ)) := by
  have hperm := sortDescBy_perm Prod.snd (rankCandidates query cands θ)
  refine ⟨?_, ?_, ?_, rfl, hperm, ?_⟩
  · simpa [find_most_similar] using List.length_take_le limit _
  · intro p hp
    have hmem : p ∈ rankCandidates query cands θ :=
      hperm.mem_iff.mp ((List.take_sublist _ _).mem hp)
    exact (mem_rankCandidates_iff.mp hmem).2.2
  · have henum : cands.enum.Pairwise (fun a b => a.1 < b.1) := by
      rw [List.enum_eq_enumFrom]
      exact pairwise_fst_lt_enumFrom 0 cands
    exact List.Pairwise.sublist (List.take_sublist _ _)
      (sortDescBy_pairwise_rank
        (henum.filterMap _
          (by
            rintro ⟨i, c⟩ ⟨j, d⟩ hij p hp q hq
            simp only at hp hq
            by_cases h1 : θ ≤ calculate_similarity query c
            · by_cases h2 : θ ≤ calculate_similarity query d
              · rw [if_pos h1] at hp; rw [if_pos h2] at hq
                cases hp; cases hq; simpa using hij
              · rw [if_neg h2] at hq; cases hq
            · rw [if_neg h1] at hp; cases hp)))
  · intro i h hθ
    exact hperm.mem_iff.mpr (mem_rankCandidates_iff.mpr ⟨h, rfl, hθ⟩)

/-- C3 witness: the rank contract evaluated at a concrete query, candidate
list, threshold and limit. -/
theorem c3_witness :
    (find_most_similar [(1 : ℝ)] [[(1 : ℝ)], [(0 : ℝ)]] 0 1).length ≤ 1 ∧
    (∀ p ∈ find_most_similar [(1 : ℝ)] [[(1 : ℝ)], [(0 : ℝ)]] 0 1, (0 : ℝ) ≤ p.2) ∧
    (find_most_similar [(1 : ℝ)] [[(1 : ℝ)], [(0 : ℝ)]] 0 1).Pairwise rankRel ∧
    find_most_similar [(1 : ℝ)] [[(1 : ℝ)], [(0 : ℝ)]] 0 1 =
      (sortDescBy Prod.snd (rankCandidates [(1 : ℝ)] [[(1 : ℝ)], [(0 : ℝ)]] 0)).take 1 ∧
    (sortDescBy Prod.snd (rankCandidates [(1 : ℝ)] [[(1 : ℝ)], [(0 : ℝ)]] 0)).Perm
      (rankCandidates [(1 : ℝ)] [[(1 : ℝ)], [(0 : ℝ)]] 0) ∧
    (∀ i : ℕ, ∀ h : i < ([[(1 : ℝ)], [(0 : ℝ)]] : List (List ℝ)).length,
      (0 : ℝ) ≤ calculate_similarity [(1 : ℝ)] (([[(1 : ℝ)], [(0 : ℝ)]] : List (List ℝ)).get ⟨i, h⟩) →
        (i, calculate_similarity [(1 : ℝ)] (([[(1 : ℝ)], [(0 : ℝ)]] : List (List ℝ)).get ⟨i, h⟩)) ∈
          sortDescBy Prod.snd (rankCandidates [(1 : ℝ)] [[(1 : ℝ)], [(0 : ℝ)]] 0)) :=
  c3_rank_contract [(1 : ℝ)] [[(1 : ℝ)], [(0 : ℝ)]] 0 1

/-! ### `ragpipe.py` — `RAGPipeline.chunk_text`

The Python `while` loop appends `text[start:start+chunk_size]` and advances
`start` by `chunk_size - overlap` as long as `start < len(text)`.  The loop
is embedded with explicit fuel: `none` means the fuel ran out before the
loop condition became false, so a computation that returns `none` for
every fuel never terminates.  `start` is an integer (Python ints), and
`pySlice` implements Python's slice clamping for arbitrary integer
bounds. -/

/-- Clamp one Python slice bound: negative indices count from the end,
then the result is clamped into `[0, n]`. -/
def pyIndexClamp (n : ℕ) (i : ℤ) : ℕ :=
  (max 0 (min (if i < 0 then i + n else i) (n : ℤ))).toNat

/-- Python's `s[a:b]` for a string (as a character list). -/
def pySlice (s : List Char) (a b : ℤ) : List Char :=
  (s.take (pyIndexClamp s.length b)).drop (pyIndexClamp s.length a)

/-- The `while start < len(text)` loop of `chunk_text`, with fuel. -/
def chunkTextFuel (text : List Char) (chunk_size overlap : ℤ) :
    ℕ → ℤ → Option (List (List Char))
  | 0, start => if start < (text.length : ℤ) then none else some []
  | fuel + 1, start =>
    if start < (text.length : ℤ) then
      (chunkTextFuel text chunk_size overlap fuel (start + (chunk_size - overlap))).map
        (fun rest => pySlice text start (start + chunk_size) :: rest)
    else some []

/-- `RAGPipeline.chunk_text` with enough fuel for every terminating
configuration (`overlap < chunk_size` needs at most `len(text)`
iterations). -/
def RAGPipeline.chunk_text (text : List Char) (chunk_size overlap : ℤ) : List (List Char) :=
  (chunkTextFuel text chunk_size overlap (text.length + 1) 0).getD []

/-- The chunking loop at this configuration never finishes, for any amount
of fuel: the silent infinite loop of `chunk_text`. -/
def chunkLoopsForever (text : List Char) (chunk_size overlap : ℤ) : Prop :=
  ∀ fuel : ℕ, chunkTextFuel text chunk_size overlap fuel 0 = none

/-- `ceil(a / b)` on naturals. -/
def ceilDiv (a b : ℕ) : ℕ := (a + b - 1) / b

theorem ceilDiv_zero_num (b : ℕ) : ceilDiv 0 b = 0 := by
  rcases Nat.eq_zero_or_pos b with h | h
  · simp [ceilDiv, h]
  · unfold ceilDiv
    exact Nat.div_eq_of_lt (by omega)

theorem ceilDiv_step {m s : ℕ} (hm : 1 ≤ m) (hs : 1 ≤ s) :
    ceilDiv m s = 1 + ceilDiv (m - s) s := by
  unfold ceilDiv
  rcases le_or_lt m s with h | h
  · have h1 : (m + s - 1) / s = 1 := Nat.div_eq_of_lt_le (by omega) (by omega)
    have h2 : m - s = 0 := by omega
    have h3 : (0 + s - 1) / s = 0 := Nat.div_eq_of_lt (by omega)
    rw [h1, h2, h3]
  · have key : m + s - 1 = (m - s + s - 1) + s := by omega
    rw [key, Nat.add_div_right _ (by omega)]
    exact Nat.add_comm _ 1

theorem chunkTextFuel_no_advance (text : List Char) {c o : ℤ} (hco : c ≤ o) :
    ∀ (fuel : ℕ) (start : ℤ), start < (text.length : ℤ) →
      chunkTextFuel text c o fuel start = none := by
  intro fuel
  induction fuel with
  | zero => intro start h; simp [chunkTextFuel, h]
  | succ n ih =>
    intro start h
    have h2 : start + (c - o) < (text.length : ℤ) := by omega
    simp [chunkTextFuel, h, ih _ h2]

theorem chunkTextFuel_eq (text : List Char) {c o : ℤ} (hco : o < c) :
    ∀ (fuel : ℕ) (start : ℤ), 0 ≤ start → (text.length : ℤ) - start ≤ fuel →
      chunkTextFuel text c o fuel start =
        some ((List.range (ceilDiv ((text.length : ℤ) - start).toNat (c - o).toNat)).map
          (fun i : ℕ => pySlice text (start + (i : ℤ) * (c - o))
            (start + (i : ℤ) * (c - o) + c))) := by
  intro fuel
  induction fuel with
  | zero =>
    intro start h0 hf
    have hns : ¬ start < (text.length : ℤ) := by omega
    have hz : ((text.length : ℤ) - start).toNat = 0 := by omega
    simp [chunkTextFuel, hns, hz, ceilDiv_zero_num]
  | succ n ih =>
    intro start h0 hf
    by_cases hlt : start < (text.length : ℤ)
    · have h02 : (0 : ℤ) ≤ start + (c - o) := by omega
      have h2 : (text.length : ℤ) - (start + (c - o)) ≤ n := by omega
      have hrec := ih (start + (c - o)) h02 h2
      simp only [chunkTextFuel, if_pos hlt, hrec, Option.map_some']
      have hm : 1 ≤ ((text.length : ℤ) - start).toNat := by omega
      have hs : 1 ≤ (c - o).toNat := by omega
      have hsub : ((text.length : ℤ) - (start + (c - o))).toNat =
          ((text.length : ℤ) - start).toNat - (c - o).toNat := by omega
      have hK : ceilDiv ((text.length : ℤ) - start).toNat (c - o).toNat =
          ceilDiv (((text.length : ℤ) - (start + (c - o))).toNat) (c - o).toNat + 1 := by
        rw [hsub, ceilDiv_step hm hs]
        exact Nat.add_comm 1 _
      rw [hK, List.range_succ_eq_map, List.map_cons, List.map_map]
      refine congrArg some ?_
      refine congrArg₂ List.cons ?_ ?_
      · congr 1 <;> push_cast <;> ring
      · refine List.map_congr_left ?_
        intro i _
        simp only [Function.comp_apply]
        congr 1 <;> push_cast <;> ring
    · have hz : ((text.length : ℤ) - start).toNat = 0 := by omega
      simp [chunkTextFuel, hlt, hz, ceilDiv_zero_num]

theorem pySlice_length_le (s : List Char) {a c : ℤ} (ha : 0 ≤ a) (hc : 0 ≤ c) :
    (pySlice s a (a + c)).length ≤ c.toNat := by
  unfold pySlice pyIndexClamp
  rw [if_neg (by omega), if_neg (by omega)]
  simp only [List.length_drop, List.length_take]
  omega

/-- C5: the claimed chunk count `ceil((len(text) - overlap) / (chunk_size -
overlap))` is wrong for the code: a 9-character text with `chunk_size = 3`
and `overlap = 1` (a configuration allowed by the claim) produces 5
chunks, while the formula gives 4. -/
theorem c5_counterexample :
    0 < (['a', 'b', 'c', 'd', 'e', 'f', 'g', 'h', 'i'] : List Char).length ∧
    (0 : ℤ) ≤ 1 ∧ (1 : ℤ) < 3 ∧
    (RAGPipeline.chunk_text ['a', 'b', 'c', 'd', 'e', 'f', 'g', 'h', 'i'] 3 1).length = 5 ∧
    ceilDiv ((['a', 'b', 'c', 'd', 'e', 'f', 'g', 'h', 'i'] : List Char).length - 1) (3 - 1)
      = 4 := by
  refine ⟨by decide, by decide, by decide, ?_, by decide⟩
  decide

/-- C5 (amended): for non-empty text and `0 ≤ overlap < chunk_size` the
`i`-th chunk is the slice starting `i * (chunk_size - overlap)` characters
in (each start advancing `chunk_size - overlap` past the previous one), no
chunk exceeds `chunk_size` characters, and the number of chunks is
`ceil(len(text) / (chunk_size - overlap))`. -/
theorem c5_chunk_shape (text : List Char) (chunk_size overlap : ℤ)
    (hlen : 0 < text.length) (ho : 0 ≤ overlap) (hoc : overlap < chunk_size) :
    RAGPipeline.chunk_text text chunk_size overlap =
      (List.range (ceilDiv text.length (chunk_size - overlap).toNat)).map
        (fun i : ℕ => pySlice text ((i : ℤ) * (chunk_size - overlap))
          ((i : ℤ) * (chunk_size - overlap) + chunk_size)) ∧
    (RAGPipeline.chunk_text text chunk_size overlap).length =
      ceilDiv text.length (chunk_size - overlap).toNat ∧
    ∀ ch ∈ RAGPipeline.chunk_text text chunk_size overlap,
      ch.length ≤ chunk_size.toNat := by
  have heq := chunkTextFuel_eq text hoc (text.length + 1) 0 le_rfl (by omega)
  have hchunk : RAGPipeline.chunk_text text chunk_size overlap =
      (List.range (ceilDiv text.length (chunk_size - overlap).toNat)).map
        (fun i : ℕ => pySlice text ((i : ℤ) * (chunk_size - overlap))
          ((i : ℤ) * (chunk_size - overlap) + chunk_size)) := by
    rw [RAGPipeline.chunk_text, heq]
    simp
  refine ⟨hchunk, by rw [hchunk]; simp, ?_⟩
  intro ch hch
  rw [hchunk] at hch
  rcases List.mem_map.mp hch with ⟨i, _, rfl⟩
  exact pySlice_length_le text
    (mul_nonneg (Int.natCast_nonneg i) (by omega)) (by omega)

/-- C5 witness: the amended chunk-shape theorem evaluated on the
9-character text with `chunk_size = 3`, `overlap = 1`. -/
theorem c5_witness :
    0 < (['a', 'b', 'c', 'd', 'e', 'f', 'g', 'h', 'i'] : List Char).length ∧
    (0 : ℤ) ≤ 1 ∧ (1 : ℤ) < 3 ∧
    (RAGPipeline.chunk_text ['a', 'b', 'c', 'd', 'e', 'f', 'g', 'h', 'i'] 3 1 =
      (List.range (ceilDiv (['a', 'b', 'c', 'd', 'e', 'f', 'g', 'h', 'i'] : List Char).length
          ((3 : ℤ) - 1).toNat)).map
        (fun i : ℕ => pySlice ['a', 'b', 'c', 'd', 'e', 'f', 'g', 'h', 'i']
          ((i : ℤ) * ((3 : ℤ) - 1)) ((i : ℤ) * ((3 : ℤ) - 1) + 3)) ∧
    (RAGPipeline.chunk_text ['a', 'b', 'c', 'd', 'e', 'f', 'g', 'h', 'i'] 3 1).length =
      ceilDiv (['a', 'b', 'c', 'd', 'e', 'f', 'g', 'h', 'i'] : List Char).length
        ((3 : ℤ) - 1).toNat ∧
    ∀ ch ∈ RAGPipeline.chunk_text ['a', 'b', 'c', 'd', 'e', 'f', 'g', 'h', 'i'] 3 1,
      ch.length ≤ (3 : ℤ).toNat) :=
  ⟨by decide, by decide, by decide,
    c5_chunk_shape ['a', 'b', 'c', 'd', 'e', 'f', 'g', 'h', 'i'] 3 1
      (by decide) (by decide) (by decide)⟩

/-- C6: the claim says a configuration with `overlap >= chunk_size` is
rejected as a fatal configuration error rather than silently failing to
advance; the code has no such check — at the concrete configuration
`chunk_text("ab", chunk_size=1, overlap=1)` the loop never completes for
any amount of fuel (a silent infinite loop). -/
theorem c6_counterexample : chunkLoopsForever ['a', 'b'] 1 1 := by
  intro fuel
  exact chunkTextFuel_no_advance ['a', 'b'] (by norm_num) fuel 0 (by norm_num)

/-- C6 (amended): `chunk_text` terminates with a finite chunk list for
every text whenever `overlap < chunk_size`; when `overlap >= chunk_size`
and the text is non-empty the loop never advances and never terminates —
the bad configuration is not rejected, it loops silently. -/
theorem c6_chunk_termination :
    (∀ (text : List Char) (chunk_size overlap : ℤ), overlap < chunk_size →
      ∃ chunks, chunkTextFuel text chunk_size overlap (text.length + 1) 0 = some chunks) ∧
    (∀ (text : List Char) (chunk_size overlap : ℤ), chunk_size ≤ overlap →
      0 < text.length → chunkLoopsForever text chunk_size overlap) := by
  constructor
  · intro text c o hco
    exact ⟨_, chunkTextFuel_eq text hco (text.length + 1) 0 le_rfl (by omega)⟩
  · intro text c o hco hlen fuel
    exact chunkTextFuel_no_advance text hco fuel 0 (by omega)

/-- C6 witness: the termination half at a terminating configuration and
the divergence half at a non-advancing one. -/
theorem c6_witness :
    ((1 : ℤ) < 2 ∧ ∃ chunks, chunkTextFuel ['a', 'b'] 2 1 3 0 = some chunks) ∧
    ((1 : ℤ) ≤ 2 ∧ 0 < (['a', 'b'] : List Char).length ∧ chunkLoopsForever ['a', 'b'] 1 2) :=
  ⟨⟨by decide, c6_chunk_termination.1 ['a', 'b'] 2 1 (by decide)⟩,
   ⟨by decide, by decide, c6_chunk_termination.2 ['a', 'b'] 1 2 (by decide) (by decide)⟩⟩

/-! ### `backend/app/core/config.py` and `backend/app/rag/retriever.py`

The SQLAlchemy rows become explicit record lists, the global
`embedding_service.generate_embedding` becomes an oracle `embedFn`
together with an explicit call counter (`EmbedState`), and
`settings` becomes a `Settings` value. -/

structure Settings where
  SIMILARITY_THRESHOLD : ℝ
  MAX_RETRIEVED_DOCS : ℕ
  ESCALATION_THRESHOLD : ℝ

/-- The values from `config.py`. -/
noncomputable def defaultSettings : Settings :=
  { SIMILARITY_THRESHOLD := 0.7, MAX_RETRIEVED_DOCS := 5, ESCALATION_THRESHOLD := 0.5 }

structure TicketRec where
  id : ℤ
  title : String

structure TicketEmbeddingRec where
  ticket_id : ℤ
  embedding_vector : List ℝ

structure KnowledgeRec where
  id : ℤ
  title : String
  category : String
  is_active : Bool

structure KnowledgeEmbeddingRec where
  knowledge_id : ℤ
  embedding_vector : List ℝ

/-- The database tables the retriever reads. -/
structure Db where
  tickets : List TicketRec
  ticket_embeddings : List TicketEmbeddingRec
  knowledge : List KnowledgeRec
  knowledge_embeddings : List KnowledgeEmbeddingRec

/-- The embedding service's process-wide state: how many times
`generate_embedding` has been called. -/
structure EmbedState where
  calls : ℕ

/-- `embedding_service.generate_embedding`: returns the model's vector for
the text and bumps the call counter. -/
def generate_embedding (embedFn : String → List ℝ) (st : EmbedState) (text : String) :
    List ℝ × EmbedState :=
  (embedFn text, ⟨st.calls + 1⟩)

structure TicketHit where
  ticket : TicketRec
  similarity : ℝ

structure KnowledgeHit where
  knowledge : KnowledgeRec
  similarity : ℝ

/-- `TicketRetriever.find_similar_tickets`: embed the query, join ticket
embeddings with tickets, drop the excluded ticket id when the Python-truthy
`exclude_ticket_id` filter applies, keep similarities above the configured
threshold, sort descending (stable), truncate to `limit`, and look each
surviving row's ticket up again (rows whose ticket vanished are skipped). -/
noncomputable def find_similar_tickets (embedFn : String → List ℝ) (st : EmbedState)
    (settings : Settings) (query : String) (db : Db) (limit : ℕ)
    (exclude_ticket_id : Option ℤ) : List TicketHit × EmbedState :=
  let qe := generate_embedding embedFn st query
  let joined := db.ticket_embeddings.filter
    (fun te : TicketEmbeddingRec => db.tickets.any (fun t => decide (t.id = te.ticket_id)))
  let filtered := match exclude_ticket_id with
    | some e =>
      if e ≠ 0 then joined.filter (fun te : TicketEmbeddingRec => decide (te.ticket_id ≠ e))
      else joined
    | none => joined
  let similarities := filtered.filterMap (fun te : TicketEmbeddingRec =>
    let s := calculate_similarity qe.1 te.embedding_vector
    if settings.SIMILARITY_THRESHOLD ≤ s then some (te.ticket_id, s) else none)
  let sorted := sortDescBy Prod.snd similarities
  let hits := (sorted.take limit).filterMap (fun p : ℤ × ℝ =>
    (db.tickets.find? (fun t => decide (t.id = p.1))).map (fun t => TicketHit.mk t p.2))
  (hits, qe.2)

/-- `TicketRetriever.find_relevant_knowledge`: same shape as
`find_similar_tickets` but joined against the knowledge table, filtered by
the Python-truthy `category` parameter and by `is_active`, with no
exclusion parameter at all. -/
noncomputable def find_relevant_knowledge (embedFn : String → List ℝ) (st : EmbedState)
    (settings : Settings) (query : String) (db : Db) (limit : ℕ)
    (category : Option String) : List KnowledgeHit × EmbedState :=
  let qe := generate_embedding embedFn st query
  let joined := db.knowledge_embeddings.filterMap (fun ke : KnowledgeEmbeddingRec =>
    (db.knowledge.find? (fun k => decide (k.id = ke.knowledge_id))).map (fun k => (ke, k)))
  let cat_filtered := match category with
    | some c =>
      if c ≠ "" then
        joined.filter (fun p : KnowledgeEmbeddingRec × KnowledgeRec => decide (p.2.category = c))
      else joined
    | none => joined
  let active_filtered := cat_filtered.filter
    (fun p : KnowledgeEmbeddingRec × KnowledgeRec => p.2.is_active)
  let similarities := active_filtered.filterMap (fun p : KnowledgeEmbeddingRec × KnowledgeRec =>
    let s := calculate_similarity qe.1 p.1.embedding_vector
    if settings.SIMILARITY_THRESHOLD ≤ s then some (p.1.knowledge_id, s) else none)
  let sorted := sortDescBy Prod.snd similarities
  let hits := (sorted.take limit).filterMap (fun q : ℤ × ℝ =>
    (db.knowledge.find? (fun k => decide (k.id = q.1))).map (fun k => KnowledgeHit.mk k q.2))
  (hits, qe.2)

structure HybridResult where
  similar_tickets : List TicketHit
  relevant_knowledge : List KnowledgeHit
  total_results : ℕ

/-- `TicketRetriever.hybrid_search`: split the budget
(`ticket_limit = limit // 2`, `knowledge_limit = limit - ticket_limit`),
run the two sub-searches (each of which embeds the query through the
shared service), and return both lists plus their combined count. -/
noncomputable def hybrid_search (embedFn : String → List ℝ) (st : EmbedState)
    (settings : Settings) (query : String) (db : Db) (limit : ℕ)
    (exclude_ticket_id : Option ℤ) : HybridResult × EmbedState :=
  let ticket_limit := limit / 2
  let knowledge_limit := limit - ticket_limit
  let tr := find_similar_tickets embedFn st settings query db ticket_limit exclude_ticket_id
  let kr := find_relevant_knowledge embedFn tr.2 settings query db knowledge_limit none
  ({ similar_tickets := tr.1, relevant_knowledge := kr.1,
     total_results := tr.1.length + kr.1.length }, kr.2)

theorem find_similar_tickets_length_le (embedFn : String → List ℝ) (st : EmbedState)
    (settings : Settings) (query : String) (db : Db) (limit : ℕ) (ex : Option ℤ) :
    (find_similar_tickets embedFn st settings query db limit ex).1.length ≤ limit :=
  le_trans (List.length_filterMap_le _ _) (List.length_take_le _ _)

theorem find_relevant_knowledge_length_le (embedFn : String → List ℝ) (st : EmbedState)
    (settings : Settings) (query : String) (db : Db) (limit : ℕ) (cat : Option String) :
    (find_relevant_knowledge embedFn st settings query db limit cat).1.length ≤ limit :=
  le_trans (List.length_filterMap_le _ _) (List.length_take_le _ _)

theorem find_similar_tickets_excludes (embedFn : String → List ℝ) (st : EmbedState)
    (settings : Settings) (query : String) (db : Db) (limit : ℕ) {e : ℤ} (he : e ≠ 0) :
    ∀ th ∈ (find_similar_tickets embedFn st settings query db limit (some e)).1,
      th.ticket.id ≠ e := by
  intro th hth
  simp only [find_similar_tickets] at hth
  rcases List.mem_filterMap.mp hth with ⟨p, hp, hmap⟩
  rcases Option.map_eq_some'.mp hmap with ⟨t, hfind, rfl⟩
  have ht : t.id = p.1 := by
    have := List.find?_some hfind
    simpa using this
  have hp2 : p ∈ sortDescBy Prod.snd _ := (List.take_sublist _ _).mem hp
  have hp3 := (sortDescBy_perm Prod.snd _).mem_iff.mp hp2
  rcases List.mem_filterMap.mp hp3 with ⟨te, hte, hf⟩
  have hte2 : te.ticket_id ≠ e := by
    rw [if_pos he] at hte
    have := List.of_mem_filter hte
    simpa using this
  have hp1 : p.1 = te.ticket_id := by
    by_cases hs : settings.SIMILARITY_THRESHOLD ≤
        calculate_similarity (embedFn query) te.embedding_vector
    · simp only [generate_embedding, hs, if_pos] at hf
      cases hf
      rfl
    · simp only [generate_embedding] at hf
      rw [if_neg hs] at hf
      cases hf
  simp only [TicketHit.mk, ht, hp1]
  exact hte2

/-- C7: the claim says hybrid retrieval embeds the query text exactly
once; the code calls `generate_embedding` once in each of the two
sub-searches, so one `hybrid_search` call advances the embedding-service
call counter by 2, not 1. -/
theorem c7_counterexample :
    (hybrid_search (fun _ => ([] : List ℝ)) ⟨0⟩ defaultSettings "q" ⟨[], [], [], []⟩ 4
      none).2.calls = 2 ∧ (2 : ℕ) ≠ 1 :=
  ⟨rfl, by decide⟩

/-- C7 (amended): `hybrid_search` splits `total_limit` into a ticket
budget `total_limit // 2` and a knowledge budget of the remainder, embeds
the query text once per sub-search (twice in total), issues the two
queries independently with their sub-budgets, applies the exclude id only
to the ticket query, and returns both lists with their combined count. -/
theorem c7_hybrid_contract (embedFn : String → List ℝ) (st : EmbedState)
    (settings : Settings) (query : String) (db : Db) (limit : ℕ) (ex : Option ℤ) :
    (hybrid_search embedFn st settings query db limit ex).2.calls = st.calls + 2 ∧
    (hybrid_search embedFn st settings query db limit ex).1.similar_tickets =
      (find_similar_tickets embedFn st settings query db (limit / 2) ex).1 ∧
    (hybrid_search embedFn st settings query db limit ex).1.relevant_knowledge =
      (find_relevant_knowledge embedFn st settings query db (limit - limit / 2) none).1 ∧
    (hybrid_search embedFn st settings query db limit ex).1.total_results =
      (hybrid_search embedFn st settings query db limit ex).1.similar_tickets.length +
        (hybrid_search embedFn st settings query db limit ex).1.relevant_knowledge.length ∧
    (hybrid_search embedFn st settings query db limit ex).1.similar_tickets.length ≤
      limit / 2 ∧
    (hybrid_search embedFn st settings query db limit ex).1.relevant_knowledge.length ≤
      limit - limit / 2 ∧
    (∀ e : ℤ, ex = some e → e ≠ 0 →
      ∀ th ∈ (hybrid_search embedFn st settings query db limit ex).1.similar_tickets,
        th.ticket.id ≠ e) := by
  refine ⟨rfl, rfl, rfl, rfl, ?_, ?_, ?_⟩
  · exact find_similar_tickets_length_le embedFn st settings query db (limit / 2) ex
  · exact find_relevant_knowledge_length_le embedFn _ settings query db (limit - limit / 2) none
  · rintro e rfl he th hth
    exact find_similar_tickets_excludes embedFn st settings query db (limit / 2) he th hth

/-- C7 witness: the amended hybrid-search contract evaluated at a concrete
embedding oracle, state, settings, query, database, limit and exclude id. -/
theorem c7_witness :
    (hybrid_search (fun _ => ([] : List ℝ)) ⟨0⟩ defaultSettings "q" ⟨[], [], [], []⟩ 5
        (some 1)).2.calls = (⟨0⟩ : EmbedState).calls + 2 ∧
    (hybrid_search (fun _ => ([] : List ℝ)) ⟨0⟩ defaultSettings "q" ⟨[], [], [], []⟩ 5
        (some 1)).1.similar_tickets =
      (find_similar_tickets (fun _ => ([] : List ℝ)) ⟨0⟩ defaultSettings "q" ⟨[], [], [], []⟩
        (5 / 2) (some 1)).1 ∧
    (hybrid_search (fun _ => ([] : List ℝ)) ⟨0⟩ defaultSettings "q" ⟨[], [], [], []⟩ 5
        (some 1)).1.relevant_knowledge =
      (find_relevant_knowledge (fun _ => ([] : List ℝ)) ⟨0⟩ defaultSettings "q" ⟨[], [], [], []⟩
        (5 - 5 / 2) none).1 ∧
    (hybrid_search (fun _ => ([] : List ℝ)) ⟨0⟩ defaultSettings "q" ⟨[], [], [], []⟩ 5
        (some 1)).1.total_results =
      (hybrid_search (fun _ => ([] : List ℝ)) ⟨0⟩ defaultSettings "q" ⟨[], [], [], []⟩ 5
        (some 1)).1.similar_tickets.length +
      (hybrid_search (fun _ => ([] : List ℝ)) ⟨0⟩ defaultSettings "q" ⟨[], [], [], []⟩ 5
        (some 1)).1.relevant_knowledge.length ∧
    (hybrid_search (fun _ => ([] : List ℝ)) ⟨0⟩ defaultSettings "q" ⟨[], [], [], []⟩ 5
        (some 1)).1.similar_tickets.length ≤ 5 / 2 ∧
    (hybrid_search (fun _ => ([] : List ℝ)) ⟨0⟩ defaultSettings "q" ⟨[], [], [], []⟩ 5
        (some 1)).1.relevant_knowledge.length ≤ 5 - 5 / 2 ∧
    (∀ e : ℤ, (some (1 : ℤ) : Option ℤ) = some e → e ≠ 0 →
      ∀ th ∈ (hybrid_search (fun _ => ([] : List ℝ)) ⟨0⟩ defaultSettings "q" ⟨[], [], [], []⟩ 5
          (some 1)).1.similar_tickets,
        th.ticket.id ≠ e) :=
  c7_hybrid_contract (fun _ => ([] : List ℝ)) ⟨0⟩ defaultSettings "q" ⟨[], [], [], []⟩ 5 (some 1)

/-! ### `backend/app/rag/generator.py` — `ResponseGenerator`

The whole body of `generate_response` runs inside one `try`; the outcome
of the external completion call (`client.chat.completions.create` plus
extraction of `choices[0].message.content`) is injected as an
`Except Unit String` parameter, `Except.error` standing for any raised
exception.  The `except` branch returns the fixed fallback payload. -/

structure SourceRec where
  type : String
  id : ℤ
  title : String
  similarity : ℝ

/-- `ResponseGenerator._extract_sources`: ticket sources then knowledge
sources, each tagged with its corpus, id, title and similarity. -/
def extract_sources (similar_tickets : List TicketHit)
    (relevant_knowledge : List KnowledgeHit) : List SourceRec :=
  (similar_tickets.map (fun item =>
      SourceRec.mk "ticket" item.ticket.id item.ticket.title item.similarity)) ++
  (relevant_knowledge.map (fun item =>
      SourceRec.mk "knowledge" item.knowledge.id item.knowledge.title item.similarity))

/-- `ResponseGenerator._calculate_confidence`: base 0.5, plus
`avg_similarity * 0.3` when there are similar tickets (Python truthiness:
a non-empty list), plus `avg_similarity * 0.2` when there is relevant
knowledge, clamped into `[0, 1]` by `min(max(confidence, 0.0), 1.0)`. -/
noncomputable def calculate_confidence (similar_tickets : List TicketHit)
    (relevant_knowledge : List KnowledgeHit) : ℝ :=
  let confidence : ℝ := 0.5
  let confidence := if similar_tickets.isEmpty then confidence else
    confidence +
      ((similar_tickets.map TicketHit.similarity).sum / similar_tickets.length) * 0.3
  let confidence := if relevant_knowledge.isEmpty then confidence else
    confidence +
      ((relevant_knowledge.map KnowledgeHit.similarity).sum / relevant_knowledge.length) * 0.2
  min (max confidence 0) 1

structure GenResponse where
  response : String
  confidence : ℝ
  sources : List SourceRec
  should_escalate : Bool

/-- The fixed fallback payload of the `except` branch of
`ResponseGenerator.generate_response`. -/
def fallbackResponse : GenResponse :=
  { response := "I apologize, but I\x27m unable to generate a response at this time. Please contact a human agent for assistance."
    confidence := 0
    sources := []
    should_escalate := true }

/-- `ResponseGenerator.generate_response`: on a successful completion,
return the generated text with the retrieval-quality confidence, the
extracted sources and `should_escalate = confidence < ESCALATION_THRESHOLD`;
on any exception, return the fixed fallback. -/
noncomputable def ResponseGenerator.generate_response (settings : Settings)
    (completion : Except Unit String) (similar_tickets : List TicketHit)
    (relevant_knowledge : List KnowledgeHit) : GenResponse :=
  match completion with
  | .ok generated_text =>
    let confidence := calculate_confidence similar_tickets relevant_knowledge
    { response := generated_text
      confidence := confidence
      sources := extract_sources similar_tickets relevant_knowledge
      should_escalate := if confidence < settings.ESCALATION_THRESHOLD then true else false }
  | .error _ => fallbackResponse

/-! ### `ragpipe.py` — `RAGPipeline.generate_response`

The retrieval outcome enters as the list of Chroma `distances` (scores are
`1 - d`), and the outcome of `requests.post` +
`result["choices"][0]["message"]["content"]` enters as an
`Except Unit String`.  The function has no `try`/`except`: a failed or
malformed completion response propagates to the caller. -/

noncomputable def RAGPipeline.generate_response (completion : Except Unit String)
    (distances : List ℝ) (threshold : ℝ) : Except Unit (String × ℝ × Bool) :=
  let scores := distances.map (fun d => 1 - d)
  let avg_score : ℝ := if scores.isEmpty then 0 else scores.sum / scores.length
  match completion with
  | .error e => .error e
  | .ok reply =>
    let is_confident := if threshold ≤ avg_score then true else false
    .ok (reply, avg_score, is_confident)

/-- C1: the claim says the response synthesizer never propagates a
completion failure to its caller; `RAGPipeline.generate_response` (one of
the two cited synthesizers) has no exception handler, and a failed
completion call propagates as-is. -/
theorem c1_counterexample :
    RAGPipeline.generate_response (.error ()) [] (7 / 10) = .error () := rfl

/-- C1 (amended): the backend `ResponseGenerator.generate_response`
returns the fixed fallback reply with confidence `0.0`, empty sources and
`should_escalate = true` on every completion failure and never propagates
it, while the ragpipe pipeline's `generate_response` propagates every
completion failure to its caller as an exception. -/
theorem c1_failure_policy :
    (∀ (settings : Settings) (similar_tickets : List TicketHit)
        (relevant_knowledge : List KnowledgeHit),
      ResponseGenerator.generate_response settings (.error ()) similar_tickets
        relevant_knowledge = fallbackResponse ∧
      (ResponseGenerator.generate_response settings (.error ()) similar_tickets
        relevant_knowledge).confidence = 0 ∧
      (ResponseGenerator.generate_response settings (.error ()) similar_tickets
        relevant_knowledge).sources = [] ∧
      (ResponseGenerator.generate_response settings (.error ()) similar_tickets
        relevant_knowledge).should_escalate = true) ∧
    (∀ (distances : List ℝ) (threshold : ℝ),
      RAGPipeline.generate_response (.error ()) distances threshold = .error ()) :=
  ⟨fun _ _ _ => ⟨rfl, rfl, rfl, rfl⟩, fun _ _ => rfl⟩

/-- C2: the claim says every `synthesize` call returns a confidence in
`[0, 1]`; the cited `ragpipe.py` synthesizer returns the unclamped
`avg_score = mean(1 - distance)`, which at the concrete Chroma distance
list `[2]` is `-1`, outside `[0, 1]`. -/
theorem c2_counterexample :
    RAGPipeline.generate_response (.ok "r") [2] (7 / 10) = .ok ("r", -1, false) ∧
      ¬ (0 : ℝ) ≤ -1 := by
  constructor
  · have havg : ((1 : ℝ) - 2) / (1 : ℝ) = -1 := by norm_num
    simp only [RAGPipeline.generate_response, List.map_cons, List.map_nil,
      List.isEmpty_cons, Bool.false_eq_true, if_false, List.sum_cons, List.sum_nil,
      List.length_cons, List.length_nil, Nat.cast_one, add_zero, zero_add, havg]
    rw [if_neg (by norm_num)]
  · norm_num

/-- C2 (amended): the backend synthesizer's confidence starts at 0.5, adds
`avg * 0.3` for non-empty ticket results and `avg * 0.2` for non-empty
knowledge results, is clamped into `[0, 1]`, equals 0.5 when both lists
are empty and 0.0 when the completion fails; the ragpipe variant's
returned score is the unclamped `mean(1 - distance)`. -/
theorem c2_confidence_contract (similar_tickets : List TicketHit)
    (relevant_knowledge : List KnowledgeHit) (settings : Settings) :
    0 ≤ calculate_confidence similar_tickets relevant_knowledge ∧
    calculate_confidence similar_tickets relevant_knowledge ≤ 1 ∧
    calculate_confidence [] [] = 0.5 ∧
    calculate_confidence similar_tickets relevant_knowledge =
      min (max ((0.5 : ℝ)
        + (if similar_tickets.isEmpty then 0 else
            ((similar_tickets.map TicketHit.similarity).sum / similar_tickets.length) * 0.3)
        + (if relevant_knowledge.isEmpty then 0 else
            ((relevant_knowledge.map KnowledgeHit.similarity).sum /
              relevant_knowledge.length) * 0.2)) 0) 1 ∧
    (ResponseGenerator.generate_response settings (.error ()) similar_tickets
      relevant_knowledge).confidence = 0 := by
  refine ⟨?_, ?_, ?_, ?_, rfl⟩
  · exact le_min (le_max_right _ _) zero_le_one
  · exact min_le_right _ _
  · norm_num [calculate_confidence]
  · cases h1 : similar_tickets.isEmpty <;> cases h2 : relevant_knowledge.isEmpty <;>
      simp [calculate_confidence, h1, h2] <;> ring_nf

/-! ### `ragpipe.py` — the ticket log (`tickets.jsonl`)

`get_all_tickets` iterates the file line by line, calls `json.loads` on
every line with no exception handling, and returns the parsed records
most-recent-first (`tickets[::-1]`).  The file content is modelled as an
optional string (`none` = the file does not exist), `json.loads` as a
small executable JSON reader (`Except.error` standing for the raised
`JSONDecodeError`). -/

inductive Json where
  | null : Json
  | bool (b : Bool) : Json
  | num (q : ℚ) : Json
  | str (s : String) : Json
  | arr (elems : List Json) : Json
  | obj (members : List (String × Json)) : Json

def isJsonWs (c : Char) : Bool :=
  c = ' ' || c = '\n' || c = '\t' || c = '\r'

def skipWs (s : List Char) : List Char := s.dropWhile isJsonWs

def hexDigitVal (c : Char) : Option ℕ :=
  if '0' ≤ c ∧ c ≤ '9' then some (c.toNat - Char.toNat '0')
  else if 'a' ≤ c ∧ c ≤ 'f' then some (c.toNat - Char.toNat 'a' + 10)
  else if 'A' ≤ c ∧ c ≤ 'F' then some (c.toNat - Char.toNat 'A' + 10)
  else none

def escapeChar (c : Char) : Option Char :=
  if c = '"' then some '"'
  else if c = '\\' then some '\\'
  else if c = '/' then some '/'
  else if c = 'b' then some (Char.ofNat 8)
  else if c = 'f' then some (Char.ofNat 12)
  else if c = 'n' then some '\n'
  else if c = 'r' then some '\r'
  else if c = 't' then some '\t'
  else none

/-- Body of a JSON string after the opening quote; `none` on an
unterminated or ill-escaped string (e.g. a line truncated mid-write). -/
def parseStringBody : List Char → Option (List Char × List Char)
  | [] => none
  | '"' :: rest => some ([], rest)
  | '\\' :: 'u' :: h1 :: h2 :: h3 :: h4 :: rest => do
    let v1 ← hexDigitVal h1
    let v2 ← hexDigitVal h2
    let v3 ← hexDigitVal h3
    let v4 ← hexDigitVal h4
    let p ← parseStringBody rest
    some (Char.ofNat (((v1 * 16 + v2) * 16 + v3) * 16 + v4) :: p.1, p.2)
  | '\\' :: e :: rest => do
    let ec ← escapeChar e
    let p ← parseStringBody rest
    some (ec :: p.1, p.2)
  | c :: rest => do
    let p ← parseStringBody rest
    some (c :: p.1, p.2)

def digitsToNat (ds : List Char) : ℕ :=
  ds.foldl (fun a c => a * 10 + (c.toNat - Char.toNat '0')) 0

def parseExponent (v : ℚ) : List Char → Option (ℚ × List Char)
  | [] => some (v, [])
  | c :: rest =>
    if c = 'e' ∨ c = 'E' then
      let signed : ℤ × List Char := match rest with
        | '-' :: r => (-1, r)
        | '+' :: r => (1, r)
        | r => (1, r)
      let ds := signed.2.takeWhile Char.isDigit
      if ds.isEmpty then none
      else some (v * (10 : ℚ) ^ (signed.1 * (digitsToNat ds : ℤ)), signed.2.drop ds.length)
    else some (v, c :: rest)

def parseNumber (s : List Char) : Option (ℚ × List Char) :=
  let start : Bool × List Char := match s with
    | '-' :: r => (true, r)
    | _ => (false, s)
  let ds := start.2.takeWhile Char.isDigit
  if ds.isEmpty then none
  else
    let intPart : ℚ := (digitsToNat ds : ℚ)
    let s2 := start.2.drop ds.length
    let cont : Option (ℚ × List Char) := match s2 with
      | '.' :: r =>
        let fs := r.takeWhile Char.isDigit
        if fs.isEmpty then none
        else parseExponent (intPart + (digitsToNat fs : ℚ) / (10 : ℚ) ^ fs.length)
          (r.drop fs.length)
      | _ => parseExponent intPart s2
    match cont with
    | some p => some ((if start.1 then -p.1 else p.1), p.2)
    | none => none

mutual

/-- One JSON value; the fuel bounds the total number of recursive
descents and is chosen large enough at the top entry point. -/
def parseValue : ℕ → List Char → Option (Json × List Char)
  | 0, _ => none
  | fuel + 1, s =>
    match skipWs s with
    | [] => none
    | c :: rest =>
      if c = '"' then
        (parseStringBody rest).map (fun p => (Json.str (String.mk p.1), p.2))
      else if c = '\x7b' then
        match skipWs rest with
        | '\x7d' :: r2 => some (Json.obj [], r2)
        | r2 => (parseMembers fuel r2).map (fun p => (Json.obj p.1, p.2))
      else if c = '[' then
        match skipWs rest with
        | ']' :: r2 => some (Json.arr [], r2)
        | r2 => (parseElems fuel r2).map (fun p => (Json.arr p.1, p.2))
      else if c = 't' then
        match rest with
        | 'r' :: 'u' :: 'e' :: r => some (Json.bool true, r)
        | _ => none
      else if c = 'f' then
        match rest with
        | 'a' :: 'l' :: 's' :: 'e' :: r => some (Json.bool false, r)
        | _ => none
      else if c = 'n' then
        match rest with
        | 'u' :: 'l' :: 'l' :: r => some (Json.null, r)
        | _ => none
      else
        (parseNumber (c :: rest)).map (fun p => (Json.num p.1, p.2))

/-- The members of a JSON object after the opening brace. -/
def parseMembers : ℕ → List Char → Option (List (String × Json) × List Char)
  | 0, _ => none
  | fuel + 1, s =>
    match skipWs s with
    | '"' :: rest =>
      match parseStringBody rest with
      | none => none
      | some kp =>
        match skipWs kp.2 with
        | ':' :: r2 =>
          match parseValue fuel r2 with
          | none => none
          | some vp =>
            match skipWs vp.2 with
            | ',' :: r4 =>
              (parseMembers fuel r4).map
                (fun p => ((String.mk kp.1, vp.1) :: p.1, p.2))
            | '\x7d' :: r4 => some ([(String.mk kp.1, vp.1)], r4)
            | _ => none
        | _ => none
    | _ => none

/-- The elements of a JSON array after the opening bracket. -/
def parseElems : ℕ → List Char → Option (List Json × List Char)
  | 0, _ => none
  | fuel + 1, s =>
    match parseValue fuel s with
    | none => none
    | some vp =>
      match skipWs vp.2 with
      | ',' :: r2 => (parseElems fuel r2).map (fun p => (vp.1 :: p.1, p.2))
      | ']' :: r2 => some ([vp.1], r2)
      | _ => none

end

/-- `json.loads`: parse one complete JSON document, allowing surrounding
whitespace, failing on anything else (in particular on a truncated
record). -/
def json_loads (line : String) : Option Json :=
  let s := line.toList
  match parseValue (s.length + 1) s with
  | some vp => if (skipWs vp.2).isEmpty then some vp.1 else none
  | none => none

/-- Helper for `splitLines`: `acc` holds the current line's characters in
reverse; a newline always finishes a line, and the end of the file
finishes one only if it is non-empty (a file ending in a newline has no
trailing empty line). -/
def splitLinesAux : List Char → List Char → List String
  | [], acc => if acc.isEmpty then [] else [String.mk acc.reverse]
  | '\n' :: rest, acc => String.mk acc.reverse :: splitLinesAux rest []
  | c :: rest, acc => splitLinesAux rest (c :: acc)

/-- Iterating a text file line by line, as `for line in f` does (with the
newline terminators stripped; `json.loads` ignores them anyway). -/
def splitLines (content : String) : List String :=
  splitLinesAux content.toList []

/-- The `for line in f: tickets.append(json.loads(line))` loop:
the first undecodable line raises (`Except.error`). -/
def readTicketsLoop : List String → List Json → Except Unit (List Json)
  | [], tickets => .ok tickets
  | line :: rest, tickets =>
    match json_loads line with
    | some j => readTicketsLoop rest (tickets ++ [j])
    | none => .error ()

/-- `RAGPipeline.get_all_tickets`: missing file means no tickets;
otherwise read every line and return the records latest-first. -/
def RAGPipeline.get_all_tickets (ticketsFile : Option String) : Except Unit (List Json) :=
  match ticketsFile with
  | none => .ok []
  | some content => (readTicketsLoop (splitLines content) []).map List.reverse

/-- Lines 32–34 of `ragpipe.py`: statements in the body of
`class RAGPipeline`, executed when the module is imported — if
`tickets.jsonl` exists it is opened with mode `"w"` and closed, i.e.
truncated to empty; no instance construction or reset call is involved. -/
def ragpipeModuleImport (ticketsFile : Option String) : Option String :=
  match ticketsFile with
  | some _ => some ""
  | none => none

/-- Decode every line, or fail if any line is undecodable. -/
def decodeLines : List String → Option (List Json)
  | [] => some []
  | l :: ls =>
    match json_loads l, decodeLines ls with
    | some j, some js => some (j :: js)
    | _, _ => none

theorem readTicketsLoop_eq (lines : List String) :
    ∀ acc : List Json, readTicketsLoop lines acc =
      match decodeLines lines with
      | some js => .ok (acc ++ js)
      | none => .error () := by
  induction lines with
  | nil => intro acc; simp [readTicketsLoop, decodeLines]
  | cons l ls ih =>
    intro acc
    simp only [readTicketsLoop, decodeLines]
    cases h : json_loads l with
    | none => simp
    | some j =>
      simp only [ih (acc ++ [j])]
      cases hm : decodeLines ls with
      | none => simp
      | some js => simp

theorem decodeLines_eq_none :
    ∀ {lines : List String}, (∃ line ∈ lines, json_loads line = none) →
      decodeLines lines = none := by
  intro lines h
  induction lines with
  | nil => simp at h
  | cons l ls ih =>
    rcases h with ⟨x, hx, hnone⟩
    rcases List.mem_cons.mp hx with rfl | hx
    · simp [decodeLines, hnone]
    · cases h1 : json_loads l with
      | none => simp [decodeLines, h1]
      | some j => simp [decodeLines, h1, ih ⟨x, hx, hnone⟩]

/-- C9: the claim says a crash-truncated last line is discarded on read;
in the code `json.loads` raises on it and the raise propagates, so the
whole read fails — here on a log whose first line is well-formed and whose
last line is a truncated record. -/
theorem c9_counterexample :
    RAGPipeline.get_all_tickets (some "\x7b\"id\": 1\x7d\n\x7b\"id") = .error () ∧
      json_loads "\x7b\"id\": 1\x7d" = some (Json.obj [("id", Json.num 1)]) :=
  ⟨rfl, rfl⟩

/-- C9 (amended): `get_all_tickets` reads the log line by line and
returns the parsed entries most-recent-first when every line is
well-formed JSON; a file containing any undecodable line — in particular a
last line truncated by a crash mid-write — makes the read fail with the
parse error instead of discarding that line. -/
theorem c9_read_contract :
    (∀ (content : String) (entries : List Json),
      decodeLines (splitLines content) = some entries →
        RAGPipeline.get_all_tickets (some content) = .ok entries.reverse) ∧
    (∀ content : String, (∃ line ∈ splitLines content, json_loads line = none) →
      RAGPipeline.get_all_tickets (some content) = .error ()) := by
  constructor
  · intro content entries h
    simp [RAGPipeline.get_all_tickets, readTicketsLoop_eq, h, Except.map]
  · intro content h
    simp [RAGPipeline.get_all_tickets, readTicketsLoop_eq, decodeLines_eq_none h, Except.map]

/-- C9 witness: the read contract evaluated on a concrete two-line log
and on a concrete log with a truncated last line. -/
theorem c9_witness :
    (decodeLines (splitLines "\x7b\"id\": 1\x7d\n\x7b\"id\": 2\x7d\n") =
        some [Json.obj [("id", Json.num 1)], Json.obj [("id", Json.num 2)]] ∧
      RAGPipeline.get_all_tickets (some "\x7b\"id\": 1\x7d\n\x7b\"id\": 2\x7d\n") =
        .ok [Json.obj [("id", Json.num 1)], Json.obj [("id", Json.num 2)]].reverse) ∧
    ((∃ line ∈ splitLines "\x7b\"id\": 1\x7d\n\x7b\"id", json_loads line = none) ∧
      RAGPipeline.get_all_tickets (some "\x7b\"id\": 1\x7d\n\x7b\"id") = .error ()) :=
  ⟨⟨rfl, c9_read_contract.1 "\x7b\"id\": 1\x7d\n\x7b\"id\": 2\x7d\n"
      [Json.obj [("id", Json.num 1)], Json.obj [("id", Json.num 2)]] rfl⟩,
   ⟨⟨"\x7b\"id", by constructor <;> first | decide | rfl⟩,
    c9_read_contract.2 "\x7b\"id\": 1\x7d\n\x7b\"id"
      ⟨"\x7b\"id", by constructor <;> first | decide | rfl⟩⟩⟩

/-- C10: evaluating the `RAGPipeline` class body (which happens when the
`ragpipe` module is imported, before any instance is constructed and
without any reset being requested) truncates `tickets.jsonl` to empty
whenever it exists, leaves a missing file missing, and a subsequent read
of the truncated log returns no entries — so the log never survives a
process restart. -/
theorem c10_import_truncates_log (prior : String) :
    ragpipeModuleImport (some prior) = some "" ∧
    RAGPipeline.get_all_tickets (ragpipeModuleImport (some prior)) = .ok [] ∧
    ragpipeModuleImport none = none :=
  ⟨rfl, rfl, rfl⟩
